import Mathlib

/-!
# Verification of the VLESS checker (`main.py`)

A shallow embedding of the descriptor parser (`VLESSChecker.parse_config`)
and the report builder (`VLESSChecker.run_check`) of the repository, together
with theorems settling the spec's claims about them.

Strings are modelled as `List Char` internally (Python `str` indexing and
slicing is by code point, as is `List Char`); descriptor fields use Lean
`String`, which wraps a `List Char`.  Python operations used by the source
are modelled one to one:

* `s.split(sep, 1)`  → `splitFirst` (split at the first occurrence);
* `s.rsplit(sep, 1)` → `splitLast`  (split at the last occurrence);
* `s.split(sep)`     → `splitAll`;
* `int(s)`           → `pyInt` (partial, hence `Option Int`; a `ValueError`
  raised by `int` is the `none` case, which the source's bare `except`
  turns into a `None` result);
* `dict` insertion / `dict.get` → `dictInsert` / `dictGet` on an
  association list with unique keys kept in insertion order.

Network probes perform I/O, so `run_check` is embedded as a function of the
parsed configuration together with the four probe outcomes
(success flag and message for dns, geo, tcp, http), exactly as the source
combines them after the `await`s.
-/

/-- Python `s.split(c, 1)` for a single-character separator: the part before
the first occurrence of `c` and the part after it.  When `c` does not occur
the whole list is returned as the first component (the source always guards
the call with a containment test). -/
def splitFirst : List Char → Char → List Char × List Char
  | [], _ => ([], [])
  | x :: xs, c =>
    if x = c then ([], xs)
    else
      let p := splitFirst xs c
      (x :: p.1, p.2)

/-- Python `s.rsplit(c, 1)` for a single-character separator: the part before
the last occurrence of `c` and the part after it. -/
def splitLast (s : List Char) (c : Char) : List Char × List Char :=
  let p := splitFirst s.reverse c
  (p.2.reverse, p.1.reverse)

/-- Python `s.split(c)` (no maxsplit): all `c`-separated pieces; the empty
string yields `[[]]`, matching `"".split(c) == ['']`. -/
def splitAll : List Char → Char → List (List Char)
  | [], _ => [[]]
  | x :: xs, c =>
    if x = c then [] :: splitAll xs c
    else
      match splitAll xs c with
      | [] => [[x]]
      | y :: ys => (x :: y) :: ys

/-- Whitespace stripped by Python `int(str)` (ASCII fragment). -/
def isPySpace (c : Char) : Bool :=
  c = ' ' || c = '\t' || c = '\n' || c = '\r' || c = '\x0b' || c = '\x0c'

/-- Digit run of Python `int`, after the first digit: decimal digits with
single underscores allowed only between digits.  `acc` is the value read so
far. -/
def pyDigitsAux : Nat → List Char → Option Nat
  | acc, [] => some acc
  | acc, '_' :: c :: rest =>
    if c.isDigit then pyDigitsAux (acc * 10 + (c.toNat - 48)) rest else none
  | acc, c :: rest =>
    if c.isDigit then pyDigitsAux (acc * 10 + (c.toNat - 48)) rest else none

/-- Digit part of Python `int`: at least one decimal digit, underscores only
between digits. -/
def pyDigits : List Char → Option Nat
  | [] => none
  | c :: rest => if c.isDigit then pyDigitsAux (c.toNat - 48) rest else none

/-- Python `int(s)` in base 10 (ASCII fragment): optional surrounding
whitespace, an optional single sign, then digits with optional underscores
between digits.  `none` models the `ValueError` raised on any other input. -/
def pyInt (s : List Char) : Option Int :=
  let t := ((s.dropWhile isPySpace).reverse.dropWhile isPySpace).reverse
  match t with
  | '+' :: rest => (pyDigits rest).map Int.ofNat
  | '-' :: rest => (pyDigits rest).map (fun n => -(n : Int))
  | rest => (pyDigits rest).map Int.ofNat

/-- Python `d[k] = v` on a `dict` modelled as an association list with unique
keys in insertion order: overwrite the value in place if the key is present,
otherwise append. -/
def dictInsert (d : List (List Char × List Char)) (k v : List Char) :
    List (List Char × List Char) :=
  match d with
  | [] => [(k, v)]
  | (k', v') :: rest =>
    if k' = k then (k', v) :: rest else (k', v') :: dictInsert rest k v

/-- Python `d.get(k, dflt)`: the value stored at `k` (keys are unique, so the
first match is the only match), else the default. -/
def dictGet (d : List (List Char × List Char)) (k dflt : List Char) :
    List Char :=
  match d with
  | [] => dflt
  | (k', v') :: rest => if k' = k then v' else dictGet rest k dflt

/-- One iteration of the parameter loop in `parse_config`: a piece containing
`=` is split at the first `=` and assigned into the dict; a piece without `=`
is skipped. -/
def paramStep (d : List (List Char × List Char)) (p : List Char) :
    List (List Char × List Char) :=
  if '=' ∈ p then dictInsert d (splitFirst p '=').1 (splitFirst p '=').2
  else d

/-- The `params` dict built by `parse_config` from the query-parameter part:
empty when the part is empty (the source guards with `if params_part:`),
otherwise the `&`-separated pieces folded through `paramStep`. -/
def parseParams (params_part : List Char) : List (List Char × List Char) :=
  if params_part = [] then [] else (splitAll params_part '&').foldl paramStep []

/-- The descriptor built by `parse_config` on success (source lines 58–67). -/
structure Config where
  uuid : String
  host : String
  port : Int
  name : String
  security : String
  type : String
  sni : String
  flow : String
  deriving Repr, DecidableEq

/-- Steps 1–2 of `parse_config`: require the `vless://` scheme, drop it,
require an `@`, and split identity from the remainder at the first `@`.
`none` models the early `return None` branches. -/
def restOf (s : String) : Option (List Char × List Char) :=
  let cs := s.data
  if cs.take 8 = "vless://".data then
    let t := cs.drop 8
    if '@' ∈ t then some (splitFirst t '@') else none
  else none

/-- Step 3 of `parse_config`: split the remainder at the last `#` into server
part and label, the label defaulting to `"Unknown"`. -/
def serverPartOf (rest : List Char) : List Char × List Char :=
  if '#' ∈ rest then splitLast rest '#' else (rest, "Unknown".data)

/-- Step 4 of `parse_config`: split the server part at the first `?` into
address part and query-parameter part (empty when no `?`). -/
def addressPartOf (server_part : List Char) : List Char × List Char :=
  if '?' ∈ server_part then splitFirst server_part '?'
  else (server_part, [])

/-- Step 5 of `parse_config`: split the address at the last `:` into host and
port and convert the port with `int`; without a `:` the port defaults to 443.
`none` models the `ValueError` of `int(port)` caught by the outer `except`. -/
def portOf (address_part : List Char) : Option (List Char × Int) :=
  if ':' ∈ address_part then
    match pyInt (splitLast address_part ':').2 with
    | none => none
    | some p => some ((splitLast address_part ':').1, p)
  else some (address_part, 443)

/-- Steps 3–6 of `parse_config`, applied to the part after the `@`: build the
full descriptor, or fail when the port does not convert. -/
def parseRest (uuid_part rest : List Char) : Option Config :=
  match portOf (addressPartOf (serverPartOf rest).1).1 with
  | none => none
  | some hp =>
    some
      { uuid := ⟨uuid_part⟩
        host := ⟨hp.1⟩
        port := hp.2
        name := ⟨(serverPartOf rest).2⟩
        security :=
          ⟨dictGet (parseParams (addressPartOf (serverPartOf rest).1).2)
            "security".data "none".data⟩
        type :=
          ⟨dictGet (parseParams (addressPartOf (serverPartOf rest).1).2)
            "type".data "tcp".data⟩
        sni :=
          ⟨dictGet (parseParams (addressPartOf (serverPartOf rest).1).2)
            "sni".data []⟩
        flow :=
          ⟨dictGet (parseParams (addressPartOf (serverPartOf rest).1).2)
            "flow".data []⟩ }

/-- The parser `VLESSChecker.parse_config` (source lines 24–69) as a whole.
Every failure path of the source — missing scheme, missing `@`, and the
`ValueError` of `int(port)` collapsed by the bare `except` — is the `none`
result. -/
def parse_config (s : String) : Option Config :=
  match restOf s with
  | none => none
  | some ur => parseRest ur.1 ur.2

/-- One `{'success': ..., 'message': ...}` entry of the report's `checks`
mapping. -/
structure CheckEntry where
  success : Bool
  message : String
  deriving Repr, DecidableEq

/-- The report dict built by `run_check` (source lines 159–194): the six
top-level keys, with `checks` an insertion-ordered mapping from check name to
entry. -/
structure Report where
  success : Bool
  timestamp : String
  server : String
  checks : List (String × CheckEntry)
  overall_status : String
  success_rate : String
  deriving Repr, DecidableEq

/-- The report builder `VLESSChecker.run_check` (source lines 156–194) as a function of the
parsed configuration and the four probe outcomes (flag, message) in source
order dns, geo, tcp, http.  The `none` branch is the early return of lines
168–170; otherwise the initial dict of lines 159–166 is updated exactly as
lines 172–192 do. -/
def run_check (cfg : Option Config) (ts : String)
    (dns geo tcp http : Bool × String) : Report :=
  match cfg with
  | none =>
    { success := false
      timestamp := ts
      server := "N/A"
      checks := [("config", ⟨false, "VLESS config parse error"⟩)]
      overall_status := "FAILED"
      success_rate := "0/0" }
  | some c =>
    let ok := dns.1 && tcp.1 && http.1
    { success := ok
      timestamp := ts
      server := c.host ++ ":" ++ toString c.port
      checks :=
        [("dns", ⟨dns.1, dns.2⟩), ("geo", ⟨geo.1, geo.2⟩),
         ("tcp", ⟨tcp.1, tcp.2⟩), ("http", ⟨http.1, http.2⟩)]
      overall_status := if ok then "OK" else "FAILED"
      success_rate :=
        toString ([dns.1, geo.1, tcp.1, http.1].count true) ++ "/" ++
          toString ([dns.1, geo.1, tcp.1, http.1].length) }

/-- The value a Python `dict` built from `key=value` pieces ends up holding
for key `k`, described from the piece list directly: the value of the last
piece that contains `=` and whose key (part before the first `=`) is `k`;
pieces without `=` contribute nothing. -/
def lastParamValue (pieces : List (List Char)) (k : List Char) :
    Option (List Char) :=
  (pieces.filterMap fun p =>
    if '=' ∈ p ∧ (splitFirst p '=').1 = k then some (splitFirst p '=').2
    else none).getLast?

example : pyInt "8443".data = some 8443 := by decide
example : pyInt "notanumber".data = none := by decide
example : pyInt " -17 ".data = some (-17) := by decide
example : pyInt "1_0".data = some 10 := by decide
example : pyInt "1__0".data = none := by decide
example : pyInt "".data = none := by decide

example :
    parse_config "vless://uuid@example.com:8443?security=tls&type=ws&sni=s.example#MyNode"
      = some ⟨"uuid", "example.com", 8443, "MyNode", "tls", "ws", "s.example", ""⟩ := by
  decide

example : parse_config "not-a-vless-string" = none := by decide
example : parse_config "vless://uuid@host:notanumber" = none := by decide
example : (parse_config "vless://uuid@example.com#A#B").map Config.name = some "B" := by decide
example : (parse_config "vless://u@h:0").map Config.port = some 0 := by decide
example : (parse_config "vless://u@").map Config.host = some "" := by decide

/-- C2: for every input string, `parse_config` returns either a fully built
descriptor or `none`.  The embedding is a total function: every
exception-raising operation of the source (`int(port)`) is modelled by an
`Option` whose `none` case the bare `except` of lines 68–69 maps to `None`,
so no input escapes these two outcomes. -/
theorem parse_config_total (s : String) :
    parse_config s = none ∨ ∃ d, parse_config s = some d := by
  cases h : parse_config s
  · exact Or.inl rfl
  · exact Or.inr ⟨_, rfl⟩

/-- C3: with a `none` descriptor, `run_check` returns the report whose only
check entry is `config` with the parse-error message, with
`overall_status = "FAILED"`, `success_rate = "0/0"`, `success = false`
(and `server = "N/A"`). -/
theorem run_check_none_report (ts : String) (dns geo tcp http : Bool × String) :
    run_check none ts dns geo tcp http =
      { success := false
        timestamp := ts
        server := "N/A"
        checks := [("config", ⟨false, "VLESS config parse error"⟩)]
        overall_status := "FAILED"
        success_rate := "0/0" } := rfl

/-- C1: with a parsed descriptor, the report's `success` is true iff the
DNS, TCP and HTTP probes all succeeded, and neither `success` nor
`overall_status` depends on the Geo outcome (replacing `geo` by any `geo'`
changes neither). -/
theorem run_check_success_iff (c : Config) (ts : String)
    (dns geo geo' tcp http : Bool × String) :
    ((run_check (some c) ts dns geo tcp http).success = true ↔
        dns.1 = true ∧ tcp.1 = true ∧ http.1 = true) ∧
    (run_check (some c) ts dns geo tcp http).success
      = (run_check (some c) ts dns geo' tcp http).success ∧
    (run_check (some c) ts dns geo tcp http).overall_status
      = (run_check (some c) ts dns geo' tcp http).overall_status := by
  refine ⟨?_, rfl, rfl⟩
  simp [run_check, Bool.and_eq_true, and_assoc]

/-- C7: with a parsed descriptor, `success_rate` is the count of successful
probes among all four (Geo included) over the constant denominator 4. -/
theorem run_check_success_rate (c : Config) (ts : String)
    (dns geo tcp http : Bool × String) :
    (run_check (some c) ts dns geo tcp http).success_rate
      = toString ([dns.1, geo.1, tcp.1, http.1].count true) ++ "/" ++ "4" := by
  show toString ([dns.1, geo.1, tcp.1, http.1].count true) ++ "/" ++
      toString ([dns.1, geo.1, tcp.1, http.1].length) = _
  norm_num
  rfl

/-- C9: every report of `run_check` carries all six top-level fields, and
`overall_status = "OK"` exactly when `success` is true, in both the null
and the non-null descriptor branch. -/
theorem run_check_status_ok_iff (cfg : Option Config) (ts : String)
    (dns geo tcp http : Bool × String) :
    ((run_check cfg ts dns geo tcp http).overall_status = "OK" ↔
        (run_check cfg ts dns geo tcp http).success = true) ∧
    ∃ a b c d e f, run_check cfg ts dns geo tcp http = ⟨a, b, c, d, e, f⟩ := by
  refine ⟨?_, _, _, _, _, _, _, rfl⟩
  cases cfg with
  | none =>
    constructor
    · intro h
      have hs : ("FAILED" : String) = "OK" := h
      exact absurd hs (by decide)
    · intro h
      have hb : (false : Bool) = true := h
      exact absurd hb (by decide)
  | some c =>
    cases hok : dns.1 && tcp.1 && http.1 <;>
      simp [run_check, hok]

/-- The function `splitFirst` splits at an occurrence of `c`: the input is the first
component, then `c`, then the second component, and the first component is
`c`-free. -/
theorem splitFirst_append_eq (l : List Char) (c : Char) (h : c ∈ l) :
    l = (splitFirst l c).1 ++ c :: (splitFirst l c).2 ∧
      c ∉ (splitFirst l c).1 := by
  induction l with
  | nil => cases h
  | cons x xs ih =>
    by_cases hx : x = c
    · subst hx
      simp [splitFirst]
    · have h' : c ∈ xs := by
        rcases List.mem_cons.mp h with h1 | h1
        · exact absurd h1.symm hx
        · exact h1
      obtain ⟨h1, h2⟩ := ih h'
      constructor
      · simp only [splitFirst, if_neg hx]
        simpa using congrArg (fun t => x :: t) h1
      · simp only [splitFirst, if_neg hx]
        intro hc
        rcases List.mem_cons.mp hc with h3 | h3
        · exact hx h3.symm
        · exact h2 h3

/-- The function `splitLast` splits at the LAST occurrence of `c`: the input is the first
component, then `c`, then the second component, and the second component is
`c`-free (no later occurrence of `c` exists). -/
theorem splitLast_append_eq (l : List Char) (c : Char) (h : c ∈ l) :
    l = (splitLast l c).1 ++ c :: (splitLast l c).2 ∧
      c ∉ (splitLast l c).2 := by
  have h' : c ∈ l.reverse := List.mem_reverse.mpr h
  obtain ⟨h1, h2⟩ := splitFirst_append_eq l.reverse c h'
  constructor
  · have h3 := congrArg List.reverse h1
    rw [List.reverse_reverse] at h3
    conv_lhs => rw [h3]
    simp [splitLast, List.reverse_append]
  · simp only [splitLast]
    intro hc
    exact h2 (List.mem_reverse.mp hc)

/-- Reading back a key just inserted yields the inserted value. -/
theorem dictGet_dictInsert_self (d : List (List Char × List Char))
    (k v dflt : List Char) : dictGet (dictInsert d k v) k dflt = v := by
  induction d with
  | nil => simp [dictInsert, dictGet]
  | cons p rest ih =>
    obtain ⟨k', v'⟩ := p
    by_cases h : k' = k
    · simp [dictInsert, dictGet, h]
    · simp [dictInsert, dictGet, h, ih]

/-- Inserting one key leaves lookups of a different key unchanged. -/
theorem dictGet_dictInsert_ne (d : List (List Char × List Char))
    (kIns k v dflt : List Char) (h : kIns ≠ k) :
    dictGet (dictInsert d kIns v) k dflt = dictGet d k dflt := by
  induction d with
  | nil => simp [dictInsert, dictGet, h]
  | cons p rest ih =>
    obtain ⟨k', v'⟩ := p
    by_cases h2 : k' = kIns
    · subst h2
      simp [dictInsert, dictGet, h]
    · by_cases h3 : k' = k
      · subst h3
        simp [dictInsert, dictGet, h2, Ne.symm h]
      · simp [dictInsert, dictGet, h2, h3, ih]

/-- Folding the parameter pieces through the dict leaves, for each key, the
value of the LAST `=`-containing piece with that key; `=`-free pieces
contribute nothing. -/
theorem dictGet_foldl_paramStep (pieces : List (List Char))
    (k dflt : List Char) :
    dictGet (pieces.foldl paramStep []) k dflt
      = (lastParamValue pieces k).getD dflt := by
  induction pieces using List.reverseRecOn with
  | nil => simp [lastParamValue, dictGet]
  | append_singleton qs p ih =>
    rw [List.foldl_append, List.foldl_cons, List.foldl_nil]
    by_cases hc : '=' ∈ p
    · by_cases hk : (splitFirst p '=').1 = k
      · simp only [paramStep, if_pos hc, hk, dictGet_dictInsert_self]
        simp [lastParamValue, List.filterMap_append, hc, hk]
      · simp only [paramStep, if_pos hc,
          dictGet_dictInsert_ne _ _ _ _ _ hk, ih]
        simp [lastParamValue, List.filterMap_append, hc, hk]
    · simp only [paramStep, if_neg hc, ih]
      simp [lastParamValue, List.filterMap_append, hc]

/-- Characterization of a successful parse: the descriptor is built in one
step from the decomposition of the input, with every field populated. -/
theorem parse_config_some (s : String) (d : Config)
    (h : parse_config s = some d) :
    ∃ u rest hp,
      restOf s = some (u, rest) ∧
      portOf (addressPartOf (serverPartOf rest).1).1 = some hp ∧
      d = { uuid := ⟨u⟩
            host := ⟨hp.1⟩
            port := hp.2
            name := ⟨(serverPartOf rest).2⟩
            security :=
              ⟨dictGet (parseParams (addressPartOf (serverPartOf rest).1).2)
                "security".data "none".data⟩
            type :=
              ⟨dictGet (parseParams (addressPartOf (serverPartOf rest).1).2)
                "type".data "tcp".data⟩
            sni :=
              ⟨dictGet (parseParams (addressPartOf (serverPartOf rest).1).2)
                "sni".data []⟩
            flow :=
              ⟨dictGet (parseParams (addressPartOf (serverPartOf rest).1).2)
                "flow".data []⟩ } := by
  cases hr : restOf s with
  | none =>
    simp only [parse_config, hr] at h
    exact Option.noConfusion h
  | some ur =>
    simp only [parse_config, hr] at h
    cases hpo : portOf (addressPartOf (serverPartOf ur.2).1).1 with
    | none =>
      simp only [parseRest, hpo] at h
      exact Option.noConfusion h
    | some hp =>
      simp only [parseRest, hpo] at h
      exact ⟨ur.1, ur.2, hp, rfl, hpo, (Option.some.inj h).symm⟩

/-- C4 counterexample: the port of a parsed descriptor need not be positive.
`int("0")` succeeds in Python, so `parse_config "vless://u@h:0"` yields a
descriptor whose port is `0`, which is not a positive integer. -/
theorem parse_port_not_positive_cex :
    parse_config "vless://u@h:0"
      = some ⟨"u", "h", 0, "Unknown", "none", "tcp", "", ""⟩ ∧
    ¬ (0 : Int) > 0 := ⟨by decide, by decide⟩

/-- C4 (amended): for every input on which `parse_config` succeeds, the port
is an integer (not necessarily positive — zero and negative ports are
accepted); and for every input whose address part has no `:`, the port is the
default 443. -/
theorem parse_port_default_443 (s : String) (u rest : List Char) (d : Config)
    (h1 : restOf s = some (u, rest))
    (h2 : parse_config s = some d)
    (h3 : ':' ∉ (addressPartOf (serverPartOf rest).1).1) :
    d.port = 443 := by
  obtain ⟨u', rest', hp, hr, hpo, hd⟩ := parse_config_some s d h2
  rw [h1] at hr
  injection hr with hr
  injection hr with hu hrr
  subst hu
  subst hrr
  subst hd
  have hhp : hp = ((addressPartOf (serverPartOf rest).1).1, 443) := by
    simp only [portOf, if_neg h3] at hpo
    exact (Option.some.inj hpo).symm
  rw [hhp]

/-- Witness for C4: `"vless://uuid@example.com"` has no `:` in its address
part and parses with port 443. -/
theorem parse_port_default_443_witness :
    restOf "vless://uuid@example.com"
      = some ("uuid".data, "example.com".data) ∧
    parse_config "vless://uuid@example.com"
      = some ⟨"uuid", "example.com", 443, "Unknown", "none", "tcp", "", ""⟩ ∧
    ':' ∉ (addressPartOf (serverPartOf "example.com".data).1).1 ∧
    (⟨"uuid", "example.com", 443, "Unknown", "none", "tcp", "", ""⟩ :
        Config).port = 443 :=
  ⟨by decide, by decide, by decide,
    parse_port_default_443 "vless://uuid@example.com" "uuid".data
      "example.com".data
      ⟨"uuid", "example.com", 443, "Unknown", "none", "tcp", "", ""⟩
      (by decide) (by decide) (by decide)⟩

/-- C5 counterexample: the host of a parsed descriptor can be empty.
`parse_config "vless://u@"` succeeds with `host = ""`, so a descriptor with
an empty host IS exposed to the probes. -/
theorem parse_empty_host_cex :
    parse_config "vless://u@"
      = some ⟨"u", "", 443, "Unknown", "none", "tcp", "", ""⟩ ∧
    ("" : String).data.length = 0 := ⟨by decide, by decide⟩

/-- C5 (amended): every descriptor returned by `parse_config` is fully built
in one step from the decomposition of the input — every field populated, the
four parameter fields with their defaults — so no partially-valid descriptor
reaches the probes; the host string, however, may be empty. -/
theorem parse_full_descriptor (s : String) (d : Config)
    (h : parse_config s = some d) :
    ∃ u rest hp,
      restOf s = some (u, rest) ∧
      portOf (addressPartOf (serverPartOf rest).1).1 = some hp ∧
      d = { uuid := ⟨u⟩
            host := ⟨hp.1⟩
            port := hp.2
            name := ⟨(serverPartOf rest).2⟩
            security :=
              ⟨dictGet (parseParams (addressPartOf (serverPartOf rest).1).2)
                "security".data "none".data⟩
            type :=
              ⟨dictGet (parseParams (addressPartOf (serverPartOf rest).1).2)
                "type".data "tcp".data⟩
            sni :=
              ⟨dictGet (parseParams (addressPartOf (serverPartOf rest).1).2)
                "sni".data []⟩
            flow :=
              ⟨dictGet (parseParams (addressPartOf (serverPartOf rest).1).2)
                "flow".data []⟩ } :=
  parse_config_some s d h

/-- Witness for C5 at a concrete input. -/
theorem parse_full_descriptor_witness :
    parse_config "vless://uuid@example.com:8443?security=tls#MyNode"
      = some ⟨"uuid", "example.com", 8443, "MyNode", "tls", "tcp", "", ""⟩ ∧
    (∃ u rest hp,
      restOf "vless://uuid@example.com:8443?security=tls#MyNode"
        = some (u, rest) ∧
      portOf (addressPartOf (serverPartOf rest).1).1 = some hp ∧
      (⟨"uuid", "example.com", 8443, "MyNode", "tls", "tcp", "", ""⟩ : Config)
        = { uuid := ⟨u⟩
            host := ⟨hp.1⟩
            port := hp.2
            name := ⟨(serverPartOf rest).2⟩
            security :=
              ⟨dictGet (parseParams (addressPartOf (serverPartOf rest).1).2)
                "security".data "none".data⟩
            type :=
              ⟨dictGet (parseParams (addressPartOf (serverPartOf rest).1).2)
                "type".data "tcp".data⟩
            sni :=
              ⟨dictGet (parseParams (addressPartOf (serverPartOf rest).1).2)
                "sni".data []⟩
            flow :=
              ⟨dictGet (parseParams (addressPartOf (serverPartOf rest).1).2)
                "flow".data []⟩ }) :=
  ⟨by decide,
    parse_full_descriptor "vless://uuid@example.com:8443?security=tls#MyNode"
      ⟨"uuid", "example.com", 8443, "MyNode", "tls", "tcp", "", ""⟩
      (by decide)⟩

/-- C6: whenever the address part contains a `:` and the text after its last
`:` does not convert with `int`, the whole parse fails to `none`; in
particular `parse_config "vless://uuid@host:notanumber" = none`. -/
theorem parse_invalid_port_fails (s : String) (u rest : List Char)
    (h1 : restOf s = some (u, rest))
    (h2 : ':' ∈ (addressPartOf (serverPartOf rest).1).1)
    (h3 : pyInt (splitLast (addressPartOf (serverPartOf rest).1).1 ':').2
      = none) :
    parse_config s = none ∧
    parse_config "vless://uuid@host:notanumber" = none := by
  refine ⟨?_, by decide⟩
  have hpo : portOf (addressPartOf (serverPartOf rest).1).1 = none := by
    simp [portOf, h2, h3]
  simp [parse_config, h1, parseRest, hpo]

/-- Witness for C6 at the input named by the spec. -/
theorem parse_invalid_port_fails_witness :
    restOf "vless://uuid@host:notanumber"
      = some ("uuid".data, "host:notanumber".data) ∧
    ':' ∈ (addressPartOf (serverPartOf "host:notanumber".data).1).1 ∧
    pyInt
      (splitLast (addressPartOf (serverPartOf "host:notanumber".data).1).1
        ':').2 = none ∧
    (parse_config "vless://uuid@host:notanumber" = none ∧
      parse_config "vless://uuid@host:notanumber" = none) :=
  ⟨by decide, by decide, by decide,
    parse_invalid_port_fails "vless://uuid@host:notanumber" "uuid".data
      "host:notanumber".data (by decide) (by decide) (by decide)⟩

/-- C8: the label is split from the remainder at the LAST `#` — when the
remainder contains a `#`, the parsed name is the `#`-free text after the
final `#`; when it contains none, the name defaults to `"Unknown"`; and
`parse_config "vless://uuid@example.com#A#B"` yields label `"B"`. -/
theorem parse_label_last_hash (s : String) (u rest : List Char) (d : Config)
    (h1 : restOf s = some (u, rest))
    (h2 : parse_config s = some d) :
    ('#' ∈ rest →
      d.name = ⟨(splitLast rest '#').2⟩ ∧
      rest = (splitLast rest '#').1 ++ '#' :: (splitLast rest '#').2 ∧
      '#' ∉ (splitLast rest '#').2) ∧
    ('#' ∉ rest → d.name = "Unknown") ∧
    (parse_config "vless://uuid@example.com#A#B").map Config.name
      = some "B" := by
  obtain ⟨u', rest', hp, hr, hpo, hd⟩ := parse_config_some s d h2
  rw [h1] at hr
  injection hr with hr
  injection hr with hu hrr
  subst hu
  subst hrr
  subst hd
  refine ⟨fun hm => ?_, fun hm => ?_, by decide⟩
  · exact ⟨by simp [serverPartOf, hm], (splitLast_append_eq rest '#' hm).1,
      (splitLast_append_eq rest '#' hm).2⟩
  · simp [serverPartOf, hm]

/-- Witness for C8 at the spec's multi-`#` input. -/
theorem parse_label_last_hash_witness :
    restOf "vless://uuid@example.com#A#B"
      = some ("uuid".data, "example.com#A#B".data) ∧
    parse_config "vless://uuid@example.com#A#B"
      = some ⟨"uuid", "example.com#A", 443, "B", "none", "tcp", "", ""⟩ ∧
    (('#' ∈ "example.com#A#B".data →
        (⟨"uuid", "example.com#A", 443, "B", "none", "tcp", "", ""⟩ :
            Config).name = ⟨(splitLast "example.com#A#B".data '#').2⟩ ∧
        "example.com#A#B".data
          = (splitLast "example.com#A#B".data '#').1 ++
              '#' :: (splitLast "example.com#A#B".data '#').2 ∧
        '#' ∉ (splitLast "example.com#A#B".data '#').2) ∧
      ('#' ∉ "example.com#A#B".data →
        (⟨"uuid", "example.com#A", 443, "B", "none", "tcp", "", ""⟩ :
            Config).name = "Unknown") ∧
      (parse_config "vless://uuid@example.com#A#B").map Config.name
        = some "B") :=
  ⟨by decide, by decide,
    parse_label_last_hash "vless://uuid@example.com#A#B" "uuid".data
      "example.com#A#B".data
      ⟨"uuid", "example.com#A", 443, "B", "none", "tcp", "", ""⟩
      (by decide) (by decide)⟩

/-- C10: in the parameter dict, the value of the last `key=value` occurrence
of a key wins, and pieces without `=` are skipped without affecting the
others: looking a key up in `parseParams` returns the value of the last
`=`-containing piece with that key (else the default); concretely, the
descriptor for `"vless://u@h?security=a&junk&security=b"` has
`security = "b"`. -/
theorem params_last_occurrence_wins (ps k dflt : List Char) :
    dictGet (parseParams ps) k dflt
      = (lastParamValue (splitAll ps '&') k).getD dflt ∧
    (parse_config "vless://u@h?security=a&junk&security=b").map Config.security
      = some "b" := by
  constructor
  · by_cases h : ps = []
    · subst h
      simp [parseParams, splitAll, lastParamValue, dictGet]
    · simp [parseParams, h, dictGet_foldl_paramStep]
  · decide
